import Mathlib

/-
Verification of the gateway service of the car-rental platform
(services/gateway_service: main.py, circuit_breaker.py, retry_queue.py).

Shallow embedding conventions:
- Timestamps (time.time()) are natural numbers; Python's
  `time.time() - last_failure_time >= self.timeout` over non-negative reals
  is embedded as `last + timeout <= now`.
- An upstream HTTP call either raises a transport error (httpx.RequestError)
  or yields a status code and a parsed body; `UpResp` captures the two cases.
- ISO dates (YYYY-MM-DD, parsed with datetime.fromisoformat) are embedded as
  integer day ordinals; `(date_to - date_from).days` of two midnight
  datetimes is exactly the signed difference of the ordinals.
- The action passed to `CircuitBreaker.call` is abstracted by whether it
  raises (`actionSucceeds`), since the breaker only observes that.
-/

namespace Gateway

/-! ## Circuit breaker (circuit_breaker.py) -/

/-- Breaker states, as the string field `CircuitBreakerStats.state` takes
values in {"CLOSED", "OPEN", "HALF_OPEN"}. -/
inductive BreakerState
  | CLOSED
  | OPEN
  | HALF_OPEN
deriving DecidableEq

/-- Embeds the dataclass `CircuitBreakerStats` (the `success` counter is
never read by any code path and is omitted). -/
structure CircuitBreakerStats where
  failures : Nat
  lastFailureTime : Option Nat
  state : BreakerState
deriving DecidableEq

/-- Embeds `CircuitBreaker` (constructor arguments `failure_threshold`,
`timeout`; the `name` string only feeds log/error messages). -/
structure CircuitBreaker where
  failureThreshold : Nat
  timeout : Nat
  stats : CircuitBreakerStats
deriving DecidableEq

/-- A fresh breaker as `CircuitBreaker.__init__` builds it: zero failures,
no recorded failure time, state CLOSED.  The Python defaults are
`failure_threshold=5`, `timeout=60.0`. -/
def mkBreaker (failureThreshold : Nat) (timeout : Nat) : CircuitBreaker :=
  { failureThreshold := failureThreshold
    timeout := timeout
    stats := { failures := 0, lastFailureTime := none, state := .CLOSED } }

/-- Embeds `CircuitBreaker._should_attempt_reset`. -/
def shouldAttemptReset (cb : CircuitBreaker) (now : Nat) : Bool :=
  match cb.stats.lastFailureTime with
  | none => false
  | some t => decide (t + cb.timeout ≤ now)

/-- Embeds `CircuitBreaker._on_success`: reset the failure counter; leave
OPEN→OPEN and CLOSED→CLOSED, but HALF_OPEN→CLOSED. -/
def onSuccess (s : CircuitBreakerStats) : CircuitBreakerStats :=
  { failures := 0
    lastFailureTime := s.lastFailureTime
    state := if s.state = .HALF_OPEN then .CLOSED else s.state }

/-- Embeds `CircuitBreaker._on_failure`: increment the counter, stamp the
failure time, and trip to OPEN once the (updated) counter reaches the
threshold. -/
def onFailure (threshold : Nat) (now : Nat) (s : CircuitBreakerStats) : CircuitBreakerStats :=
  { failures := s.failures + 1
    lastFailureTime := some now
    state := if threshold ≤ s.failures + 1 then .OPEN else s.state }

/-- How a `call` resolved: the action's own result was returned, the
fallback's result was returned, the action's exception was re-raised, or the
breaker-open exception was raised. -/
inductive CallOutcome
  | actionResult
  | fallbackResult
  | raisedError
  | raisedOpen
deriving DecidableEq

/-- The `try: func() ... except: ...` tail of `CircuitBreaker.call`.  Third
component of the result records that the action was invoked. -/
def runAction (cb : CircuitBreaker) (now : Nat) (actionSucceeds hasFallback : Bool) :
    CircuitBreaker × CallOutcome × Bool :=
  if actionSucceeds then
    ({ cb with stats := onSuccess cb.stats }, CallOutcome.actionResult, true)
  else
    ({ cb with stats := onFailure cb.failureThreshold now cb.stats },
     if hasFallback then CallOutcome.fallbackResult else CallOutcome.raisedError,
     true)

/-- Embeds `CircuitBreaker.call`.  `now` is the current clock,
`actionSucceeds` whether `func` would return normally, `hasFallback` whether
a fallback was passed.  Returns the updated breaker, how the call resolved,
and whether the action was invoked. -/
def CircuitBreaker.call (cb : CircuitBreaker) (now : Nat) (actionSucceeds hasFallback : Bool) :
    CircuitBreaker × CallOutcome × Bool :=
  if cb.stats.state = .OPEN then
    if shouldAttemptReset cb now then
      runAction { cb with stats := { cb.stats with state := .HALF_OPEN } } now actionSucceeds hasFallback
    else if hasFallback then (cb, CallOutcome.fallbackResult, false)
    else (cb, CallOutcome.raisedOpen, false)
  else
    runAction cb now actionSucceeds hasFallback

/-- A sequence of calls whose actions all raise (no fallback), at the given
clock values, chronological order. -/
def failCalls (cb : CircuitBreaker) : List Nat → CircuitBreaker
  | [] => cb
  | t :: rest => failCalls (cb.call t false false).1 rest

/-- A sequence of arbitrary calls: clock value, whether the action succeeds,
whether a fallback is provided. -/
def runCalls (cb : CircuitBreaker) : List (Nat × Bool × Bool) → CircuitBreaker
  | [] => cb
  | c :: rest => runCalls (cb.call c.1 c.2.1 c.2.2).1 rest

/-- Reachability invariant of the breaker: the OPEN state is only entered
with the failure counter at or above the threshold. -/
def BreakerInv (cb : CircuitBreaker) : Prop :=
  cb.stats.state = .OPEN → cb.failureThreshold ≤ cb.stats.failures

/-! ## Retry queue (retry_queue.py)

`RetryQueue.process_queue` handles one task per wake-up: run `task.func`;
on success `del self.tasks[task_id]`; on failure increment `retry_count`
and re-enqueue while `retry_count < max_retries`, otherwise
`del self.tasks[task_id]`.  A dequeued id no longer in `self.tasks` is
skipped, so nothing happens to a task after its deletion.  `processTask` is
the per-task slice of that loop: `outcomes` lists, for each worker
iteration that reaches this task, whether `task.func` returns normally;
`retryCount` is the task's current `retry_count`.  It returns how many
times the action was invoked and how many times the task was deleted from
the task map.  The Python default is `max_retries=5`. -/

/-- Per-task slice of `RetryQueue.process_queue`: (invocations, removals)
for one task given the success/failure outcome of each invocation. -/
def processTask (maxRetries : Nat) : List Bool → Nat → Nat × Nat
  | [], _ => (0, 0)
  | ok :: rest, retryCount =>
    if ok then (1, 1)
    else
      if retryCount + 1 < maxRetries then
        ((processTask maxRetries rest (retryCount + 1)).1 + 1,
         (processTask maxRetries rest (retryCount + 1)).2)
      else (1, 1)

/-! ## Upstream responses -/

/-- Outcome of one upstream HTTP call: a transport error raised by httpx
(timeout, connection refused), or a response with a status code and parsed
body. -/
inductive UpResp (α : Type)
  | transport
  | resp (status : Nat) (body : α)
deriving DecidableEq

/-! ## Data shapes consumed and produced by the gateway -/

/-- Car body returned by `GET /api/v1/cars/{carUid}` (only the fields the
gateway reads). -/
structure Car where
  carUid : String
  brand : String
  model : String
  registrationNumber : String
  price : Nat
deriving DecidableEq

/-- Payment body returned by the payment service. -/
structure Payment where
  paymentUid : String
  status : String
  price : Nat
deriving DecidableEq

/-- Rental record returned by the rental service. -/
structure Rental where
  rentalUid : String
  status : String
  carUid : String
  paymentUid : String
  dateFrom : Int
  dateTo : Int
deriving DecidableEq

/-- Schema `PaymentInfo` of the gateway's responses. -/
structure PaymentInfo where
  paymentUid : String
  status : String
  price : Nat
deriving DecidableEq

/-- Schema `CreateRentalResponse` of `POST /api/v1/rental`. -/
structure CreateRentalResponse where
  rentalUid : String
  status : String
  carUid : String
  dateFrom : Int
  dateTo : Int
  payment : PaymentInfo
deriving DecidableEq

/-- Body of `POST /api/v1/rental` (dates as day ordinals). -/
structure CreateRentalRequest where
  carUid : String
  dateFrom : Int
  dateTo : Int
deriving DecidableEq

/-! ## Rental-creation saga (main.py, create_rental) -/

/-- The upstream responses one execution of `create_rental` would observe,
one per distinct HTTP call the handler can issue. -/
structure SagaEnv where
  carResp : UpResp Car
  paymentResp : UpResp Payment
  reserveResp : UpResp Unit
  rentalResp : UpResp Rental
  releaseResp : UpResp Unit
  deletePaymentResp : UpResp Unit
deriving DecidableEq

/-- The HTTP calls `create_rental` can issue, in the order the code issues
them; `createPayment` records the price sent in the request body. -/
inductive SagaCall
  | getCar
  | createPayment (price : Nat)
  | reserveCar
  | createRentalCall
  | releaseCar
  | deletePayment
deriving DecidableEq

/-- Embeds `days = abs((date_to - date_from).days); total_price = days *
car_data["price"]` from `create_rental`. -/
def totalPrice (dateFrom dateTo : Int) (price : Nat) : Nat :=
  (dateTo - dateFrom).natAbs * price

/-- The 503 body `create_rental` returns for any `httpx.RequestError`. -/
def unavailableMsg : String := "Payment Service unavailable"

/-- How `create_rental` responds: 200 with a `CreateRentalResponse`, an
`HTTPException` with a status and detail, or the `JSONResponse` built in
the `except httpx.RequestError` handler. -/
inductive SagaResult
  | ok (r : CreateRentalResponse)
  | httpError (status : Nat) (detail : String)
  | serviceUnavailable (status : Nat) (message : String)
deriving DecidableEq

/-- Embeds the `create_rental` handler.  Every HTTP call is appended to the
trace before its response is examined (the request is issued whether or not
it then raises); a transport error anywhere inside the `try` block lands in
the `except httpx.RequestError` handler, which returns
`JSONResponse(503, {"message": unavailableMsg})` — note that this skips any
statement after the raising call, including the payment-delete compensation
when the availability-rollback PATCH is the call that raised. -/
def createRental (env : SagaEnv) (req : CreateRentalRequest) :
    SagaResult × List SagaCall :=
  match env.carResp with
  | .transport => (.serviceUnavailable 503 unavailableMsg, [.getCar])
  | .resp cs car =>
    if cs ≠ 200 then (.httpError 404 "Car not found", [.getCar])
    else
      let price := totalPrice req.dateFrom req.dateTo car.price
      match env.paymentResp with
      | .transport =>
        (.serviceUnavailable 503 unavailableMsg, [.getCar, .createPayment price])
      | .resp ps pay =>
        if ps ≠ 200 then
          (.httpError 500 "Payment service error", [.getCar, .createPayment price])
        else
          match env.reserveResp with
          | .transport =>
            (.serviceUnavailable 503 unavailableMsg,
             [.getCar, .createPayment price, .reserveCar])
          | .resp rs _ =>
            if rs ≠ 200 then
              match env.deletePaymentResp with
              | .transport =>
                (.serviceUnavailable 503 unavailableMsg,
                 [.getCar, .createPayment price, .reserveCar, .deletePayment])
              | .resp _ _ =>
                (.httpError 500 "Failed to reserve car",
                 [.getCar, .createPayment price, .reserveCar, .deletePayment])
            else
              match env.rentalResp with
              | .transport =>
                (.serviceUnavailable 503 unavailableMsg,
                 [.getCar, .createPayment price, .reserveCar, .createRentalCall])
              | .resp ts rent =>
                if ts ≠ 200 then
                  match env.releaseResp with
                  | .transport =>
                    (.serviceUnavailable 503 unavailableMsg,
                     [.getCar, .createPayment price, .reserveCar, .createRentalCall,
                      .releaseCar])
                  | .resp _ _ =>
                    match env.deletePaymentResp with
                    | .transport =>
                      (.serviceUnavailable 503 unavailableMsg,
                       [.getCar, .createPayment price, .reserveCar, .createRentalCall,
                        .releaseCar, .deletePayment])
                    | .resp _ _ =>
                      (.httpError 500 "Rental service error",
                       [.getCar, .createPayment price, .reserveCar, .createRentalCall,
                        .releaseCar, .deletePayment])
                else
                  (.ok { rentalUid := rent.rentalUid
                         status := rent.status
                         carUid := req.carUid
                         dateFrom := req.dateFrom
                         dateTo := req.dateTo
                         payment := { paymentUid := pay.paymentUid
                                      status := pay.status
                                      price := pay.price } },
                   [.getCar, .createPayment price, .reserveCar, .createRentalCall])

/-- Recognises the payment-delete compensation call in a saga trace. -/
def isDeletePayment : SagaCall → Bool
  | .deletePayment => true
  | _ => false

/-- Recognises the availability-rollback PATCH in a saga trace. -/
def isReleaseCar : SagaCall → Bool
  | .releaseCar => true
  | _ => false

/-! ## Cancel flow (main.py, cancel_rental) -/

/-- Upstream responses one execution of `cancel_rental` would observe. -/
structure CancelEnv where
  getRentalResp : UpResp Rental
  cancelResp : UpResp Unit
  releaseResp : UpResp Unit
  deletePaymentResp : UpResp Unit
deriving DecidableEq

/-- Retry-queue submissions `cancel_rental` can make (the two closures
`retry_release_car` and `retry_cancel_payment`). -/
inductive RetryTaskKind
  | releaseCarTask
  | cancelPaymentTask
deriving DecidableEq

/-- How `cancel_rental` responds: 204, an `HTTPException`, or an unhandled
`httpx.RequestError` on the initial GET (FastAPI's generic 500). -/
inductive CancelResult
  | noContent
  | httpError (status : Nat) (detail : String)
  | unhandledTransport
deriving DecidableEq

/-- Embeds the `cancel_rental` handler.  The rental-service DELETE sits in
a `try` whose `except` returns 500; each compensation sits in its own
`try/except` that on any exception submits a retry task and falls through,
so after a successful cancellation every path reaches `return None` (204).
A plain `client.patch`/`client.delete` does not raise on a non-2xx status,
so only a transport error counts as a compensation failure here. -/
def cancelRental (env : CancelEnv) : CancelResult × List RetryTaskKind :=
  match env.getRentalResp with
  | .transport => (.unhandledTransport, [])
  | .resp gs _ =>
    if gs = 404 then (.httpError 404 "Rental not found", [])
    else if gs ≠ 200 then (.httpError gs "Rental service error", [])
    else
      match env.cancelResp with
      | .transport => (.httpError 500 "Failed to cancel rental", [])
      | .resp cs _ =>
        if cs ≠ 204 then (.httpError 500 "Failed to cancel rental", [])
        else
          ((.noContent),
           (match env.releaseResp with
            | .transport => [RetryTaskKind.releaseCarTask]
            | .resp _ _ => ([] : List RetryTaskKind)) ++
           (match env.deletePaymentResp with
            | .transport => [RetryTaskKind.cancelPaymentTask]
            | .resp _ _ => ([] : List RetryTaskKind)))

/-- Recognises the release-car retry task. -/
def isReleaseTask : RetryTaskKind → Bool
  | .releaseCarTask => true
  | _ => false

/-- Recognises the cancel-payment retry task. -/
def isCancelPaymentTask : RetryTaskKind → Bool
  | .cancelPaymentTask => true
  | _ => false

/-! ## Cars listing with breaker fallback (main.py, get_cars) -/

/-- Item of the cars-listing page (`CarResponse` fields). -/
structure CarResponseItem where
  carUid : String
  brand : String
  model : String
  registrationNumber : String
  power : Option Nat
  price : Nat
  carType : String
  available : Bool
deriving DecidableEq

/-- Schema `PaginationResponse` of `GET /api/v1/cars`. -/
structure PaginationResponse where
  page : Nat
  pageSize : Nat
  totalElements : Nat
  items : List CarResponseItem
deriving DecidableEq

/-- The hardcoded car that the `fallback` closure of `get_cars` returns
("Return default car when service is unavailable"). -/
def fallbackCar : CarResponseItem :=
  { carUid := "109b42f3-198d-4c89-9276-a7520a7120ab"
    brand := "Mercedes Benz"
    model := "GLA 250"
    registrationNumber := "ЛО777Х799"
    power := some 249
    price := 3500
    carType := "SEDAN"
    available := true }

/-- Embeds the `fallback` closure of `get_cars`. -/
def getCarsFallback (page : Nat) : PaginationResponse :=
  { page := page, pageSize := 1, totalElements := 1, items := [fallbackCar] }

/-- The `fetch_cars` closure returns the parsed body only on status 200 and
raises otherwise; `none` means it raises (transport error or the explicit
`HTTPException` on a non-200 status). -/
def fetchCarsOk : UpResp PaginationResponse → Option PaginationResponse
  | .resp 200 body => some body
  | _ => none

/-- Embeds the `get_cars` handler: `breaker.call(fetch_cars,
fallback=fallback)` on the `cars_service` breaker. -/
def getCars (cb : CircuitBreaker) (now : Nat) (fetchResp : UpResp PaginationResponse)
    (page : Nat) : CircuitBreaker × PaginationResponse :=
  let r := cb.call now (fetchCarsOk fetchResp).isSome true
  (r.1,
   match r.2.1 with
   | .actionResult => (fetchCarsOk fetchResp).getD (getCarsFallback page)
   | _ => getCarsFallback page)

/-! ## Car fallback cache (main.py, car_info_cache) -/

/-- Value stored in `car_info_cache` (and shape of the empty-descriptor
fallback). -/
structure CarDescriptor where
  carUid : String
  brand : String
  model : String
  registrationNumber : String
deriving DecidableEq

/-- The cache dict `car_info_cache`, keyed by the carUid string. -/
abbrev CarCache := String → Option CarDescriptor

/-- Events that touch `car_info_cache`: the only writes in the code are the
`car_info_cache[...] = {...}` assignments performed on every successful car
fetch (in `create_rental`, `get_user_rentals` and `get_rental`); no code
path ever deletes or overwrites an entry otherwise. -/
inductive CacheEvent
  | fetchSuccess (key : String) (data : CarDescriptor)
deriving DecidableEq

/-- One cache write, `car_info_cache[key] = data`. -/
def applyEvent (c : CarCache) : CacheEvent → CarCache
  | .fetchSuccess k d => fun x => if x = k then some d else c x

/-- The cache after a chronological sequence of writes. -/
def runEvents (c : CarCache) : List CacheEvent → CarCache
  | [] => c
  | e :: rest => runEvents (applyEvent c e) rest

/-- Embeds the `car_fallback` closures: `car_info_cache.get(carUid)`, or an
empty descriptor carrying the known carUid when the key is absent. -/
def carFallbackLookup (c : CarCache) (key : String) : CarDescriptor :=
  match c key with
  | some d => d
  | none => { carUid := key, brand := "", model := "", registrationNumber := "" }

/-- The data most recently written for key `x` by the event sequence
(later events appear later in the list). -/
def lastWrite (x : String) : List CacheEvent → Option CarDescriptor
  | [] => none
  | .fetchSuccess k d :: rest =>
    match lastWrite x rest with
    | some d2 => some d2
    | none => if k = x then some d else none

/-! ## Read-aggregation payment fan-out (main.py, get_user_rentals and
get_rental) -/

/-- Whether the `fetch_payment` closure raises: it swallows any status code
(returning `{}` on non-200), so only a transport error escapes it. -/
def paymentFetchRaises : UpResp Payment → Bool
  | .transport => true
  | .resp _ _ => false

/-- Body the `fetch_payment` closure returns when it does not raise:
the parsed payment on 200, the empty dict (here `none`) otherwise. -/
def paymentFetchBody : UpResp Payment → Option Payment
  | .transport => none
  | .resp s p => if s = 200 then some p else none

/-- Embeds the `payment_fallback` closure:
`{"paymentUid": rental["paymentUid"], "status": "PAID", "price": 0}`. -/
def paymentFallback (rentalPaymentUid : String) : PaymentInfo :=
  { paymentUid := rentalPaymentUid, status := "PAID", price := 0 }

/-- Embeds the `PaymentInfo(...)` composition: each field via
`payment_data.get(key, default)`, with the rental record's paymentUid,
"PAID" and 0 as the defaults used when the dict is empty. -/
def composePaymentInfo (rentalPaymentUid : String) : Option Payment → PaymentInfo
  | some p => { paymentUid := p.paymentUid, status := p.status, price := p.price }
  | none => { paymentUid := rentalPaymentUid, status := "PAID", price := 0 }

/-- Embeds the payment fan-out shared by `get_user_rentals` and
`get_rental`: `payment_breaker.call(fetch_payment, fallback=payment_fallback)`
followed by the `PaymentInfo(...)` composition. -/
def getPaymentInfo (cb : CircuitBreaker) (now : Nat) (upResp : UpResp Payment)
    (rentalPaymentUid : String) : CircuitBreaker × PaymentInfo :=
  let r := cb.call now (!(paymentFetchRaises upResp)) true
  (r.1,
   match r.2.1 with
   | .actionResult => composePaymentInfo rentalPaymentUid (paymentFetchBody upResp)
   | _ => paymentFallback rentalPaymentUid)

/-! ## Concrete sample data for witnesses and counterexamples -/

/-- Sample car. -/
def carA : Car :=
  { carUid := "c1", brand := "BMW", model := "M5", registrationNumber := "X123"
    price := 100 }

/-- Sample payment. -/
def payA : Payment := { paymentUid := "p1", status := "PAID", price := 200 }

/-- Sample rental record. -/
def rentA : Rental :=
  { rentalUid := "r1", status := "IN_PROGRESS", carUid := "c1", paymentUid := "p1"
    dateFrom := 0, dateTo := 2 }

/-- Sample create-rental request. -/
def reqA : CreateRentalRequest := { carUid := "c1", dateFrom := 0, dateTo := 2 }

/-- Environment where step 5 (create rental) fails with HTTP 500 and the
availability-rollback PATCH compensation raises a transport error. -/
def envRentalFailReleaseTransport : SagaEnv :=
  { carResp := .resp 200 carA
    paymentResp := .resp 200 payA
    reserveResp := .resp 200 ()
    rentalResp := .resp 500 rentA
    releaseResp := .transport
    deletePaymentResp := .resp 204 () }

/-- Environment where step 4 (reserve car) fails with HTTP 500 and the
compensations answer normally. -/
def envReserveFail : SagaEnv :=
  { carResp := .resp 200 carA
    paymentResp := .resp 200 payA
    reserveResp := .resp 500 ()
    rentalResp := .resp 200 rentA
    releaseResp := .resp 200 ()
    deletePaymentResp := .resp 204 () }

/-- Environment where the payment POST raises a transport error. -/
def envPaymentTransport : SagaEnv :=
  { carResp := .resp 200 carA
    paymentResp := .transport
    reserveResp := .resp 200 ()
    rentalResp := .resp 200 rentA
    releaseResp := .resp 200 ()
    deletePaymentResp := .resp 204 () }

/-- Cancel environment: rental GET and DELETE succeed, the release-car
PATCH raises a transport error, the payment DELETE succeeds. -/
def cancelEnvA : CancelEnv :=
  { getRentalResp := .resp 200 rentA
    cancelResp := .resp 204 ()
    releaseResp := .transport
    deletePaymentResp := .resp 204 () }

/-- Sample cached car descriptor. -/
def descA : CarDescriptor :=
  { carUid := "c1", brand := "BMW", model := "M5", registrationNumber := "X123" }

/-- Sample cache-event history: one successful fetch for key "c1". -/
def evsA : List CacheEvent := [.fetchSuccess "c1" descA]

/-- The empty cache (a fresh `car_info_cache = {}`). -/
def emptyCache : CarCache := fun _ => none

/-! # Lemmas about the circuit breaker -/

/-- A failing call on a CLOSED breaker: the action is attempted and
`_on_failure` runs, so the counter increments, the failure time is stamped,
and the state trips to OPEN exactly when the updated counter reaches the
threshold. -/
theorem call_closed_fail_stats (cb : CircuitBreaker) (t : Nat) (hf : Bool)
    (h : cb.stats.state = .CLOSED) :
    (cb.call t false hf).1.failureThreshold = cb.failureThreshold ∧
    (cb.call t false hf).1.timeout = cb.timeout ∧
    (cb.call t false hf).1.stats.failures = cb.stats.failures + 1 ∧
    (cb.call t false hf).1.stats.lastFailureTime = some t ∧
    (cb.call t false hf).1.stats.state =
      (if cb.failureThreshold ≤ cb.stats.failures + 1 then BreakerState.OPEN
       else BreakerState.CLOSED) := by
  simp [CircuitBreaker.call, runAction, onFailure, h]

/-- A call on an OPEN breaker before the reset window: the breaker is left
untouched, the action is not invoked, and the call resolves to the fallback
when one is provided, to the breaker-open exception otherwise. -/
theorem call_open_stuck (cb : CircuitBreaker) (now : Nat) (s hf : Bool) (tl : Nat)
    (h1 : cb.stats.state = .OPEN) (h2 : cb.stats.lastFailureTime = some tl)
    (h3 : now < tl + cb.timeout) :
    cb.call now s hf =
      (cb, (if hf then CallOutcome.fallbackResult else CallOutcome.raisedOpen), false) := by
  have hreset : shouldAttemptReset cb now = false := by
    simp [shouldAttemptReset, h2]
    omega
  cases hf <;> simp [CircuitBreaker.call, h1, hreset]

/-- Appending a final failing call to a failing-call run. -/
theorem failCalls_append (cb : CircuitBreaker) (ts : List Nat) (tk : Nat) :
    failCalls cb (ts ++ [tk]) = ((failCalls cb ts).call tk false false).1 := by
  induction ts generalizing cb with
  | nil => rfl
  | cons t rest ih => rw [List.cons_append, failCalls, failCalls, ih]

/-- Running strictly fewer failing calls than the threshold leaves a CLOSED
breaker CLOSED, with the counter advanced by the number of calls and the
configuration untouched. -/
theorem failCalls_closed (ts : List Nat) :
    ∀ cb : CircuitBreaker, cb.stats.state = .CLOSED →
      cb.stats.failures + ts.length < cb.failureThreshold →
      (failCalls cb ts).failureThreshold = cb.failureThreshold ∧
      (failCalls cb ts).timeout = cb.timeout ∧
      (failCalls cb ts).stats.state = .CLOSED ∧
      (failCalls cb ts).stats.failures = cb.stats.failures + ts.length := by
  induction ts with
  | nil =>
    intro cb h1 _
    exact ⟨rfl, rfl, h1, rfl⟩
  | cons t rest ih =>
    intro cb h1 h2
    rw [List.length_cons] at h2
    have hne : ¬ cb.failureThreshold ≤ cb.stats.failures + 1 := by omega
    have hstep : (cb.call t false false).1 =
        { cb with stats := onFailure cb.failureThreshold t cb.stats } := by
      simp [CircuitBreaker.call, runAction, h1]
    have hstate : (onFailure cb.failureThreshold t cb.stats).state = .CLOSED := by
      simp [onFailure, hne, h1]
    have hrec := ih { cb with stats := onFailure cb.failureThreshold t cb.stats }
      hstate
      (by show cb.stats.failures + 1 + rest.length < cb.failureThreshold; omega)
    rw [failCalls, hstep]
    refine ⟨hrec.1, hrec.2.1, hrec.2.2.1, ?_⟩
    rw [hrec.2.2.2]
    show cb.stats.failures + 1 + rest.length = cb.stats.failures + (rest.length + 1)
    omega

/-- `runAction` never enters OPEN with a sub-threshold counter, provided it
is not started in OPEN (as `call` guarantees). -/
theorem runAction_inv (cb : CircuitBreaker) (now : Nat) (s hf : Bool)
    (h : cb.stats.state ≠ .OPEN) : BreakerInv (runAction cb now s hf).1 := by
  cases s
  · intro hopen
    have hopen2 : (if cb.failureThreshold ≤ cb.stats.failures + 1 then BreakerState.OPEN
        else cb.stats.state) = BreakerState.OPEN := hopen
    show cb.failureThreshold ≤ cb.stats.failures + 1
    by_cases hth : cb.failureThreshold ≤ cb.stats.failures + 1
    · exact hth
    · rw [if_neg hth] at hopen2
      exact absurd hopen2 h
  · intro hopen
    have hopen2 : (if cb.stats.state = .HALF_OPEN then BreakerState.CLOSED
        else cb.stats.state) = BreakerState.OPEN := hopen
    by_cases hh : cb.stats.state = .HALF_OPEN
    · rw [if_pos hh] at hopen2
      exact absurd hopen2 (by simp)
    · rw [if_neg hh] at hopen2
      exact absurd hopen2 h

/-- One `call` preserves the reachability invariant. -/
theorem call_inv (cb : CircuitBreaker) (now : Nat) (s hf : Bool) (h : BreakerInv cb) :
    BreakerInv (cb.call now s hf).1 := by
  unfold CircuitBreaker.call
  by_cases h1 : cb.stats.state = .OPEN
  · rw [if_pos h1]
    by_cases h2 : shouldAttemptReset cb now = true
    · rw [if_pos h2]
      exact runAction_inv _ now s hf (by simp)
    · rw [if_neg h2]
      cases hf <;> simpa using h
  · rw [if_neg h1]
    exact runAction_inv cb now s hf h1

/-- One `call` never changes the configured threshold and timeout. -/
theorem call_config (cb : CircuitBreaker) (now : Nat) (s hf : Bool) :
    (cb.call now s hf).1.failureThreshold = cb.failureThreshold ∧
    (cb.call now s hf).1.timeout = cb.timeout := by
  unfold CircuitBreaker.call runAction
  by_cases h1 : cb.stats.state = .OPEN <;>
    by_cases h2 : shouldAttemptReset cb now = true <;>
      cases s <;> cases hf <;> simp [h1, h2]

/-- Any call sequence from a fresh breaker preserves the invariant and the
configuration. -/
theorem runCalls_inv (k timeout : Nat) (calls : List (Nat × Bool × Bool)) :
    BreakerInv (runCalls (mkBreaker k timeout) calls) ∧
    (runCalls (mkBreaker k timeout) calls).failureThreshold = k ∧
    (runCalls (mkBreaker k timeout) calls).timeout = timeout := by
  suffices h : ∀ (calls : List (Nat × Bool × Bool)) (cb : CircuitBreaker),
      BreakerInv cb →
      BreakerInv (runCalls cb calls) ∧
      (runCalls cb calls).failureThreshold = cb.failureThreshold ∧
      (runCalls cb calls).timeout = cb.timeout by
    exact h calls (mkBreaker k timeout) (by intro hc; exact absurd hc (by simp [mkBreaker]))
  intro calls
  induction calls with
  | nil => intro cb hcb; exact ⟨hcb, rfl, rfl⟩
  | cons c rest ih =>
    intro cb hcb
    have hstep := call_config cb c.1 c.2.1 c.2.2
    have hrec := ih (cb.call c.1 c.2.1 c.2.2).1 (call_inv cb c.1 c.2.1 c.2.2 hcb)
    exact ⟨hrec.1, by rw [runCalls, hrec.2.1, hstep.1], by rw [runCalls, hrec.2.2, hstep.2]⟩

/-! # Claims -/

/-- C3: a breaker with threshold `k` (= `ts.length + 1`, the claim's k
consecutive failing calls with last failure at clock `tk`), started CLOSED,
is OPEN after exactly those `k` failing calls, and a further call issued at
clock `t` within `open_timeout` of the last failure does not invoke the
action: it resolves to the fallback's result when a fallback is provided,
and raises the breaker-open error otherwise. -/
theorem breaker_trip (k timeout : Nat) (ts : List Nat) (tk t : Nat)
    (hlen : ts.length + 1 = k) (hin : t < tk + timeout) (succ hf : Bool) :
    (failCalls (mkBreaker k timeout) (ts ++ [tk])).stats.state = .OPEN ∧
    (failCalls (mkBreaker k timeout) (ts ++ [tk])).stats.failures = k ∧
    (failCalls (mkBreaker k timeout) (ts ++ [tk])).stats.lastFailureTime = some tk ∧
    ((failCalls (mkBreaker k timeout) (ts ++ [tk])).call t succ hf).2.2 = false ∧
    ((failCalls (mkBreaker k timeout) (ts ++ [tk])).call t succ hf).2.1 =
      (if hf then CallOutcome.fallbackResult else CallOutcome.raisedOpen) := by
  have h0 := failCalls_closed ts (mkBreaker k timeout) rfl
    (by show 0 + ts.length < k; omega)
  obtain ⟨hth, hto, hst, hfl⟩ := h0
  have hthk : (failCalls (mkBreaker k timeout) ts).failureThreshold = k := hth
  have htok : (failCalls (mkBreaker k timeout) ts).timeout = timeout := hto
  have hfin := call_closed_fail_stats (failCalls (mkBreaker k timeout) ts) tk false hst
  have hk1 : (failCalls (mkBreaker k timeout) ts).stats.failures + 1 = k := by
    have hflk : (failCalls (mkBreaker k timeout) ts).stats.failures = 0 + ts.length := hfl
    omega
  have htrip : ((failCalls (mkBreaker k timeout) ts).call tk false false).1.stats.state
      = .OPEN := by
    rw [hfin.2.2.2.2, hthk, hk1, if_pos (le_refl k)]
  have hopenst : (failCalls (mkBreaker k timeout) (ts ++ [tk])).stats.state = .OPEN := by
    rw [failCalls_append]; exact htrip
  have hfails : (failCalls (mkBreaker k timeout) (ts ++ [tk])).stats.failures = k := by
    rw [failCalls_append, hfin.2.2.1, hk1]
  have hlastf : (failCalls (mkBreaker k timeout) (ts ++ [tk])).stats.lastFailureTime
      = some tk := by
    rw [failCalls_append]; exact hfin.2.2.2.1
  have htoeq : (failCalls (mkBreaker k timeout) (ts ++ [tk])).timeout = timeout := by
    rw [failCalls_append, hfin.2.1, htok]
  have hstuck := call_open_stuck (failCalls (mkBreaker k timeout) (ts ++ [tk]))
    t succ hf tk hopenst hlastf (by rw [htoeq]; exact hin)
  exact ⟨hopenst, hfails, hlastf, by rw [hstuck], by rw [hstuck]⟩

/-- Witness for C3: threshold 2, failing calls at clocks 5 and 10, probe at
clock 30 (within the 60-unit window), a fallback provided. -/
theorem breaker_trip_witness :
    (failCalls (mkBreaker 2 60) ([5] ++ [10])).stats.state = .OPEN ∧
    (failCalls (mkBreaker 2 60) ([5] ++ [10])).stats.failures = 2 ∧
    (failCalls (mkBreaker 2 60) ([5] ++ [10])).stats.lastFailureTime = some 10 ∧
    ((failCalls (mkBreaker 2 60) ([5] ++ [10])).call 30 false true).2.2 = false ∧
    ((failCalls (mkBreaker 2 60) ([5] ++ [10])).call 30 false true).2.1 =
      (if true then CallOutcome.fallbackResult else CallOutcome.raisedOpen) :=
  breaker_trip 2 60 [5] 10 30 (by decide) (by decide) false true

/-- C4: for any reachable breaker in state OPEN whose recorded
`last_failure_time` is `tl`, a call at clock `now` with `tl + timeout ≤ now`
invokes the action (the HALF_OPEN probe); if the action succeeds the breaker
ends CLOSED with the counter at 0, and if it fails the breaker ends OPEN
with the failure time updated to `now`. -/
theorem breaker_recovery (k timeout : Nat) (calls : List (Nat × Bool × Bool))
    (tl now : Nat) (succ hf : Bool)
    (hopen : (runCalls (mkBreaker k timeout) calls).stats.state = .OPEN)
    (hlast : (runCalls (mkBreaker k timeout) calls).stats.lastFailureTime = some tl)
    (helapsed : tl + timeout ≤ now) :
    ((runCalls (mkBreaker k timeout) calls).call now succ hf).2.2 = true ∧
    (succ = true →
      ((runCalls (mkBreaker k timeout) calls).call now succ hf).1.stats.state = .CLOSED ∧
      ((runCalls (mkBreaker k timeout) calls).call now succ hf).1.stats.failures = 0) ∧
    (succ = false →
      ((runCalls (mkBreaker k timeout) calls).call now succ hf).1.stats.state = .OPEN ∧
      ((runCalls (mkBreaker k timeout) calls).call now succ hf).1.stats.lastFailureTime
        = some now) := by
  obtain ⟨hinv, hth, hto⟩ := runCalls_inv k timeout calls
  have hreset : shouldAttemptReset (runCalls (mkBreaker k timeout) calls) now = true := by
    simp [shouldAttemptReset, hlast, hto]
    omega
  have hge : k ≤ (runCalls (mkBreaker k timeout) calls).stats.failures := by
    have := hinv hopen
    rwa [hth] at this
  rw [CircuitBreaker.call, if_pos hopen, if_pos hreset]
  cases succ
  · refine ⟨by simp [runAction], by simp, fun _ => ?_⟩
    constructor
    · show (if (runCalls (mkBreaker k timeout) calls).failureThreshold ≤
          (runCalls (mkBreaker k timeout) calls).stats.failures + 1 then BreakerState.OPEN
          else BreakerState.HALF_OPEN) = BreakerState.OPEN
      rw [if_pos (by rw [hth]; omega)]
    · simp [runAction, onFailure]
  · exact ⟨by simp [runAction], fun _ => ⟨by simp [runAction, onSuccess],
      by simp [runAction, onSuccess]⟩, by simp⟩

/-- Witness for C4: threshold 1, one failing call at clock 0 trips the
breaker; the probe at clock 10 (= 0 + timeout) runs and succeeds. -/
theorem breaker_recovery_witness :
    ((runCalls (mkBreaker 1 10) [(0, false, false)]).call 10 true false).2.2 = true ∧
    (true = true →
      ((runCalls (mkBreaker 1 10) [(0, false, false)]).call 10 true false).1.stats.state
        = .CLOSED ∧
      ((runCalls (mkBreaker 1 10) [(0, false, false)]).call 10 true false).1.stats.failures
        = 0) ∧
    (true = false →
      ((runCalls (mkBreaker 1 10) [(0, false, false)]).call 10 true false).1.stats.state
        = .OPEN ∧
      ((runCalls (mkBreaker 1 10) [(0, false, false)]).call 10 true
        false).1.stats.lastFailureTime = some 10) :=
  breaker_recovery 1 10 [(0, false, false)] 0 10 true false (by decide) (by decide)
    (by decide)

/-! # Lemmas about the retry queue -/

/-- Unfolding `processTask` on a successful invocation. -/
theorem processTask_cons_true (mr rc : Nat) (rest : List Bool) :
    processTask mr (true :: rest) rc = (1, 1) := rfl

/-- Unfolding `processTask` on a failing invocation. -/
theorem processTask_cons_false (mr rc : Nat) (rest : List Bool) :
    processTask mr (false :: rest) rc =
      (if rc + 1 < mr then
        ((processTask mr rest (rc + 1)).1 + 1, (processTask mr rest (rc + 1)).2)
      else (1, 1)) := rfl

/-- A task whose `retry_count` is `rc < max_retries`, processed through
enough worker iterations, is invoked at most `max_retries - rc` more times
and deleted exactly once. -/
theorem processTask_spec (outcomes : List Bool) :
    ∀ mr rc : Nat, rc < mr → mr ≤ outcomes.length + rc →
      (processTask mr outcomes rc).1 + rc ≤ mr ∧
      (processTask mr outcomes rc).2 = 1 := by
  induction outcomes with
  | nil =>
    intro mr rc h1 h2
    rw [List.length_nil] at h2
    omega
  | cons ok rest ih =>
    intro mr rc h1 h2
    rw [List.length_cons] at h2
    cases ok
    · rw [processTask_cons_false]
      by_cases hlt : rc + 1 < mr
      · have hrec := ih mr (rc + 1) hlt (by omega)
        rw [if_pos hlt]
        exact ⟨by omega, hrec.2⟩
      · rw [if_neg hlt]
        exact ⟨by omega, rfl⟩
    · rw [processTask_cons_true]
      exact ⟨by omega, rfl⟩

/-- C5: a task submitted with `retry_count = 0`, given enough worker
iterations (`max_retries ≤ outcomes.length`), has its action invoked at
most `max_retries` times and is deleted from the task map exactly once —
on the first successful invocation, or when the retry count reaches
`max_retries`.  The Python default is `max_retries = 5`. -/
theorem retry_bound (maxRetries : Nat) (outcomes : List Bool)
    (h1 : 0 < maxRetries) (h2 : maxRetries ≤ outcomes.length) :
    (processTask maxRetries outcomes 0).1 ≤ maxRetries ∧
    (processTask maxRetries outcomes 0).2 = 1 := by
  have h := processTask_spec outcomes maxRetries 0 h1 (by omega)
  omega

/-- Witness for C5: the default `max_retries = 5` with five failing
invocations — five attempts, one removal. -/
theorem retry_bound_witness :
    0 < 5 ∧ 5 ≤ [false, false, false, false, false].length ∧
    ((processTask 5 [false, false, false, false, false] 0).1 ≤ 5 ∧
     (processTask 5 [false, false, false, false, false] 0).2 = 1) :=
  ⟨by decide, by decide,
   retry_bound 5 [false, false, false, false, false] (by decide) (by decide)⟩

/-! # Claims about the rental-creation saga -/

/-- C1 counterexample: the claim asserts that when step 5 (create rental)
returns non-200 both compensations run even when a compensation call itself
raises a transport error.  In `envRentalFailReleaseTransport` step 5
returns 500 and the availability-rollback PATCH raises a transport error:
the exception jumps to the `except httpx.RequestError` handler, so the
payment DELETE is issued zero times, not once. -/
theorem saga_compensation_counterexample :
    envRentalFailReleaseTransport.rentalResp = UpResp.resp 500 rentA ∧
    List.countP isReleaseCar (createRental envRentalFailReleaseTransport reqA).2 = 1 ∧
    List.countP isDeletePayment (createRental envRentalFailReleaseTransport reqA).2 = 0 ∧
    (createRental envRentalFailReleaseTransport reqA).1 =
      SagaResult.serviceUnavailable 503 unavailableMsg :=
  ⟨rfl, by decide, by decide, rfl⟩

/-- C1 (amended): in a saga that reaches step 4 with a non-200 reservation
response, the payment DELETE is issued exactly once (even when it raises).
In a saga that reaches step 5 with a non-200 rental response, the
availability-rollback PATCH is issued exactly once, and the payment DELETE
is issued exactly once provided the PATCH does not raise a transport error;
when the PATCH raises a transport error the handler returns 503 without
issuing the payment DELETE. -/
theorem saga_compensation (env : SagaEnv) (req : CreateRentalRequest) (car : Car)
    (pay : Payment) (hcar : env.carResp = .resp 200 car)
    (hpay : env.paymentResp = .resp 200 pay) :
    (∀ rs : Nat, env.reserveResp = .resp rs () → rs ≠ 200 →
      List.countP isDeletePayment (createRental env req).2 = 1) ∧
    (∀ (ts : Nat) (rent : Rental), env.reserveResp = .resp 200 () →
      env.rentalResp = .resp ts rent → ts ≠ 200 →
      List.countP isReleaseCar (createRental env req).2 = 1 ∧
      (env.releaseResp ≠ .transport →
        List.countP isDeletePayment (createRental env req).2 = 1) ∧
      (env.releaseResp = .transport →
        List.countP isDeletePayment (createRental env req).2 = 0)) := by
  obtain ⟨carResp, paymentResp, reserveResp, rentalResp, releaseResp,
    deletePaymentResp⟩ := env
  subst hcar
  subst hpay
  constructor
  · intro rs hres hrs
    subst hres
    cases deletePaymentResp <;>
      simp [createRental, hrs, isDeletePayment, isReleaseCar,
        List.countP_cons, List.countP_nil]
  · intro ts rent hres hrent hts
    subst hres
    subst hrent
    cases releaseResp <;> cases deletePaymentResp <;>
      simp [createRental, hts, isDeletePayment, isReleaseCar,
        List.countP_cons, List.countP_nil]

/-- Witness for the amended C1: reservation fails with 500, compensations
answer normally — one payment DELETE. -/
theorem saga_compensation_witness :
    List.countP isDeletePayment (createRental envReserveFail reqA).2 = 1 :=
  (saga_compensation envReserveFail reqA carA payA rfl rfl).1 500 rfl (by decide)

/-- C2: a transport failure of the upstream call of any of saga steps 1-5
(car GET, payment POST, availability PATCH, rental POST; step 2 issues no
HTTP call) makes `create_rental` answer 503 with the body message "Payment
Service unavailable", whichever upstream failed. -/
theorem saga_transport_unavailable (env : SagaEnv) (req : CreateRentalRequest) :
    (env.carResp = .transport →
      (createRental env req).1 = .serviceUnavailable 503 unavailableMsg) ∧
    (∀ car : Car, env.carResp = .resp 200 car → env.paymentResp = .transport →
      (createRental env req).1 = .serviceUnavailable 503 unavailableMsg) ∧
    (∀ (car : Car) (pay : Payment), env.carResp = .resp 200 car →
      env.paymentResp = .resp 200 pay → env.reserveResp = .transport →
      (createRental env req).1 = .serviceUnavailable 503 unavailableMsg) ∧
    (∀ (car : Car) (pay : Payment), env.carResp = .resp 200 car →
      env.paymentResp = .resp 200 pay → env.reserveResp = .resp 200 () →
      env.rentalResp = .transport →
      (createRental env req).1 = .serviceUnavailable 503 unavailableMsg) := by
  obtain ⟨carResp, paymentResp, reserveResp, rentalResp, releaseResp,
    deletePaymentResp⟩ := env
  refine ⟨?_, ?_, ?_, ?_⟩
  · intro h
    subst h
    rfl
  · intro car h1 h2
    subst h1
    subst h2
    simp [createRental]
  · intro car pay h1 h2 h3
    subst h1
    subst h2
    subst h3
    simp [createRental]
  · intro car pay h1 h2 h3 h4
    subst h1
    subst h2
    subst h3
    subst h4
    simp [createRental]

/-- Witness for C2: the payment POST raises a transport error. -/
theorem saga_transport_unavailable_witness :
    (createRental envPaymentTransport reqA).1 =
      SagaResult.serviceUnavailable 503 unavailableMsg :=
  (saga_transport_unavailable envPaymentTransport reqA).2.1 carA rfl rfl

/-- After a successful car fetch, the saga trace always starts with the car
GET followed by the payment POST carrying the computed price. -/
theorem createRental_trace_shape (env : SagaEnv) (req : CreateRentalRequest)
    (car : Car) (hcar : env.carResp = .resp 200 car) :
    ∃ s : List SagaCall, (createRental env req).2 =
      SagaCall.getCar ::
        SagaCall.createPayment (totalPrice req.dateFrom req.dateTo car.price) :: s := by
  obtain ⟨carResp, paymentResp, reserveResp, rentalResp, releaseResp,
    deletePaymentResp⟩ := env
  subst hcar
  cases paymentResp <;> cases reserveResp <;> cases rentalResp <;>
    cases releaseResp <;> cases deletePaymentResp <;>
    simp only [createRental] <;> split_ifs <;>
    first
    | exact ⟨_, rfl⟩
    | omega

/-- C8: for every saga that fetched its car successfully, the price sent to
the payment service is `totalPrice`, which equals the absolute day
difference `|date_to - date_from|` times the car's price; when the two
dates coincide the price is 0. -/
theorem saga_price (env : SagaEnv) (req : CreateRentalRequest) (car : Car)
    (hcar : env.carResp = .resp 200 car) :
    totalPrice req.dateFrom req.dateTo car.price =
      (req.dateTo - req.dateFrom).natAbs * car.price ∧
    SagaCall.createPayment (totalPrice req.dateFrom req.dateTo car.price)
      ∈ (createRental env req).2 ∧
    (req.dateFrom = req.dateTo → totalPrice req.dateFrom req.dateTo car.price = 0) := by
  obtain ⟨s, hs⟩ := createRental_trace_shape env req car hcar
  refine ⟨rfl, ?_, ?_⟩
  · rw [hs]
    simp
  · intro hdd
    rw [totalPrice, hdd]
    simp

/-- Witness for C8: a two-day rental of a 100-per-day car prices at 200. -/
theorem saga_price_witness :
    totalPrice reqA.dateFrom reqA.dateTo carA.price =
      (reqA.dateTo - reqA.dateFrom).natAbs * carA.price ∧
    SagaCall.createPayment (totalPrice reqA.dateFrom reqA.dateTo carA.price)
      ∈ (createRental envReserveFail reqA).2 ∧
    (reqA.dateFrom = reqA.dateTo →
      totalPrice reqA.dateFrom reqA.dateTo carA.price = 0) :=
  saga_price envReserveFail reqA carA rfl

/-! # Claims about the cancel flow -/

/-- C6: once the rental-service cancellation answers 204, `cancel_rental`
returns 204 whatever the two compensations do, and each compensation that
raises (transport error) is submitted to the retry queue exactly once. -/
theorem cancel_returns_204 (env : CancelEnv) (rental : Rental)
    (hget : env.getRentalResp = .resp 200 rental)
    (hcancel : env.cancelResp = .resp 204 ()) :
    (cancelRental env).1 = .noContent ∧
    List.countP isReleaseTask (cancelRental env).2 =
      (if env.releaseResp = .transport then 1 else 0) ∧
    List.countP isCancelPaymentTask (cancelRental env).2 =
      (if env.deletePaymentResp = .transport then 1 else 0) := by
  obtain ⟨getRentalResp, cancelResp, releaseResp, deletePaymentResp⟩ := env
  subst hget
  subst hcancel
  cases releaseResp <;> cases deletePaymentResp <;>
    simp [cancelRental, isReleaseTask, isCancelPaymentTask,
      List.countP_cons, List.countP_nil]

/-- Witness for C6: the release-car PATCH raises, the payment DELETE
succeeds — API answers 204 and exactly one release-car retry task is
queued. -/
theorem cancel_returns_204_witness :
    (cancelRental cancelEnvA).1 = CancelResult.noContent ∧
    List.countP isReleaseTask (cancelRental cancelEnvA).2 =
      (if cancelEnvA.releaseResp = .transport then 1 else 0) ∧
    List.countP isCancelPaymentTask (cancelRental cancelEnvA).2 =
      (if cancelEnvA.deletePaymentResp = .transport then 1 else 0) :=
  cancel_returns_204 cancelEnvA rentA rfl rfl

/-! # Claims about the cars listing fallback -/

/-- A failing action behind a fallback always resolves to the fallback's
result, in every breaker state. -/
theorem call_fail_fallback (cb : CircuitBreaker) (now : Nat) :
    (cb.call now false true).2.1 = CallOutcome.fallbackResult := by
  by_cases h1 : cb.stats.state = .OPEN <;>
    by_cases h2 : shouldAttemptReset cb now = true <;>
      simp [CircuitBreaker.call, runAction, h1, h2]

/-- C7 counterexample: when the cars service is unreachable (transport
error on the fetch, here against a fresh breaker), the 200 response served
from the fallback is NOT an empty page: `totalElements` is not 0 and
`items` is not empty. -/
theorem cars_fallback_counterexample :
    (getCars (mkBreaker 5 60) 0 UpResp.transport 1).2.totalElements ≠ 0 ∧
    (getCars (mkBreaker 5 60) 0 UpResp.transport 1).2.items ≠ [] := by
  constructor <;> decide

/-- C7 (amended): whenever `get_cars` serves from the fallback — the fetch
raises or answers non-200, or the breaker is OPEN inside its reset window —
the 200 response is the hardcoded single-item page: `pageSize = 1`,
`totalElements = 1`, and `items` holds exactly the default Mercedes Benz
GLA 250 descriptor. -/
theorem cars_fallback_default_page (cb : CircuitBreaker) (now : Nat)
    (fetchResp : UpResp PaginationResponse) (page : Nat)
    (h : fetchCarsOk fetchResp = none ∨
      (cb.stats.state = .OPEN ∧ shouldAttemptReset cb now = false)) :
    (getCars cb now fetchResp page).2 = getCarsFallback page ∧
    (getCarsFallback page).pageSize = 1 ∧
    (getCarsFallback page).totalElements = 1 ∧
    (getCarsFallback page).items = [fallbackCar] := by
  refine ⟨?_, rfl, rfl, rfl⟩
  cases h with
  | inl hnone =>
    have hsome : (fetchCarsOk fetchResp).isSome = false := by
      rw [hnone]
      rfl
    simp only [getCars, hsome]
    rw [call_fail_fallback]
  | inr hopen =>
    have hstuck : cb.call now (fetchCarsOk fetchResp).isSome true =
        (cb, CallOutcome.fallbackResult, false) := by
      rw [CircuitBreaker.call, if_pos hopen.1, hopen.2]
      simp
    simp only [getCars, hstuck]

/-- Witness for the amended C7: transport error against a fresh breaker,
page 7. -/
theorem cars_fallback_default_page_witness :
    (getCars (mkBreaker 5 60) 0 UpResp.transport 7).2 = getCarsFallback 7 ∧
    (getCarsFallback 7).pageSize = 1 ∧
    (getCarsFallback 7).totalElements = 1 ∧
    (getCarsFallback 7).items = [fallbackCar] :=
  cars_fallback_default_page (mkBreaker 5 60) 0 UpResp.transport 7 (Or.inl rfl)

/-! # Claims about the car fallback cache -/

/-- The cache after a write history maps each key to its most recent write,
falling back to the initial cache contents. -/
theorem runEvents_lookup (evs : List CacheEvent) :
    ∀ (c : CarCache) (x : String),
      runEvents c evs x =
        (match lastWrite x evs with
         | some d => some d
         | none => c x) := by
  induction evs with
  | nil => intro c x; rfl
  | cons e rest ih =>
    intro c x
    cases e with
    | fetchSuccess k d =>
      rw [runEvents, ih]
      cases hlw : lastWrite x rest with
      | some d2 => simp [lastWrite, hlw]
      | none =>
        by_cases hk : k = x
        · subst hk
          simp [lastWrite, hlw, applyEvent]
        · have hxk : ¬ x = k := fun hxk => hk hxk.symm
          simp [lastWrite, hlw, applyEvent, hk, hxk]

/-- C9: after any history of successful car fetches whose most recent write
for key `x` carried descriptor `d`, the cache still holds `d` at `x` (no
invalidation path exists) and the fallback lookup for `x` returns the
brand, model and registration number most recently observed. -/
theorem cache_population (evs : List CacheEvent) (c0 : CarCache) (x : String)
    (d : CarDescriptor) (h : lastWrite x evs = some d) :
    runEvents c0 evs x = some d ∧
    (carFallbackLookup (runEvents c0 evs) x).brand = d.brand ∧
    (carFallbackLookup (runEvents c0 evs) x).model = d.model ∧
    (carFallbackLookup (runEvents c0 evs) x).registrationNumber =
      d.registrationNumber := by
  have hx := runEvents_lookup evs c0 x
  rw [h] at hx
  exact ⟨hx, by simp [carFallbackLookup, hx], by simp [carFallbackLookup, hx],
    by simp [carFallbackLookup, hx]⟩

/-- Witness for C9: one successful fetch for "c1", lookup on the empty
cache history. -/
theorem cache_population_witness :
    runEvents emptyCache evsA "c1" = some descA ∧
    (carFallbackLookup (runEvents emptyCache evsA) "c1").brand = descA.brand ∧
    (carFallbackLookup (runEvents emptyCache evsA) "c1").model = descA.model ∧
    (carFallbackLookup (runEvents emptyCache evsA) "c1").registrationNumber =
      descA.registrationNumber :=
  cache_population evsA emptyCache "c1" descA (by decide)

/-! # Claims about the read-aggregation payment fan-out -/

/-- A successful action records `_on_success` (counter to 0, state to
CLOSED) and returns the action's result, whenever the action actually runs
(breaker not OPEN, or OPEN past its reset window). -/
theorem call_success_closed (cb : CircuitBreaker) (now : Nat) (hf : Bool)
    (hrun : cb.stats.state ≠ .OPEN ∨ shouldAttemptReset cb now = true) :
    (cb.call now true hf).2.1 = CallOutcome.actionResult ∧
    (cb.call now true hf).1.stats.failures = 0 ∧
    (cb.call now true hf).1.stats.state = .CLOSED := by
  by_cases h1 : cb.stats.state = .OPEN
  · have h2 : shouldAttemptReset cb now = true := by
      cases hrun with
      | inl h => exact absurd h1 h
      | inr h => exact h
    rw [CircuitBreaker.call, if_pos h1, h2]
    refine ⟨by simp [runAction], by simp [runAction, onSuccess], ?_⟩
    simp [runAction, onSuccess]
  · rw [CircuitBreaker.call, if_neg h1]
    refine ⟨rfl, rfl, ?_⟩
    show (if cb.stats.state = .HALF_OPEN then BreakerState.CLOSED else cb.stats.state)
      = BreakerState.CLOSED
    cases hstate : cb.stats.state with
    | CLOSED => simp [hstate]
    | OPEN => exact absurd hstate h1
    | HALF_OPEN => simp [hstate]

/-- C10: in the read-path payment fan-out (shared by `get_user_rentals` and
`get_rental`), a non-200 payment response does not raise, so the payment
breaker records it as a success — its failure counter resets to 0 and its
state ends CLOSED, hence payment application errors can never trip that
breaker — while the composed `PaymentInfo` equals the declared fallback
`{paymentUid: rental's, status: "PAID", price: 0}`. -/
theorem payment_app_error_is_success (cb : CircuitBreaker) (now : Nat) (s : Nat)
    (p : Payment) (rUid : String) (hs : s ≠ 200)
    (hrun : cb.stats.state ≠ .OPEN ∨ shouldAttemptReset cb now = true) :
    (getPaymentInfo cb now (.resp s p) rUid).1.stats.failures = 0 ∧
    (getPaymentInfo cb now (.resp s p) rUid).1.stats.state = .CLOSED ∧
    (getPaymentInfo cb now (.resp s p) rUid).2 = paymentFallback rUid := by
  have hc := call_success_closed cb now true hrun
  have hbody : paymentFetchBody (UpResp.resp s p) = none := by
    simp [paymentFetchBody, hs]
  simp only [getPaymentInfo, paymentFetchRaises, Bool.not_false]
  refine ⟨hc.2.1, hc.2.2, ?_⟩
  rw [hc.1, hbody]
  rfl

/-- Witness for C10: a 404 from the payment service against a fresh
breaker. -/
theorem payment_app_error_is_success_witness :
    (getPaymentInfo (mkBreaker 5 60) 0 (UpResp.resp 404 payA) "p1").1.stats.failures
      = 0 ∧
    (getPaymentInfo (mkBreaker 5 60) 0 (UpResp.resp 404 payA) "p1").1.stats.state
      = .CLOSED ∧
    (getPaymentInfo (mkBreaker 5 60) 0 (UpResp.resp 404 payA) "p1").2 =
      paymentFallback "p1" :=
  payment_app_error_is_success (mkBreaker 5 60) 0 404 payA "p1" (by decide)
    (Or.inl (by decide))

end Gateway
